import Mathlib

/-!
Shallow embedding of the bootstrap module `main.py` of GPT-telegramus and of
the request-relay engine its specification describes.

The visible source is straight-line bootstrap glue: `load_json` (config
loading), `exit_` (shutdown), `parse_args` and `main`.  Pure data flow is
embedded as Lean functions; the straight-line bodies of `main` and `exit_`
are embedded as the traces of atomic actions they perform, in program order.
The core engine (RequestQueue, AIWorker) lives in modules that are not part
of the visible source; where a claim is decided by that engine it is
modelled from the specification, and the definition says so.
-/

namespace Telegramus

/-! ## Python JSON values and `str()` -/

/-- A parsed Python JSON value as produced by `json.load`: `null`, booleans,
numbers (modelled as integers; float formatting is out of scope and does not
affect any claim, every rendered number being nonempty either way), strings,
arrays and objects. -/
inductive PyJson where
  | null
  | bool (b : Bool)
  | num (n : Int)
  | str (s : String)
  | arr (l : List PyJson)
  | obj (l : List (String × PyJson))

mutual

/-- Python `repr()` of a parsed JSON value, used by `str()` inside
containers: `None`, `True`/`False`, decimal integers, quoted strings,
`[...]` lists and `{...}` dicts. -/
def pyRepr : PyJson → String
  | PyJson.null => "None"
  | PyJson.bool true => "True"
  | PyJson.bool false => "False"
  | PyJson.num n => Int.repr n
  | PyJson.str s => "\x27" ++ s ++ "\x27"
  | PyJson.arr l => "[" ++ pyReprList l ++ "]"
  | PyJson.obj l => "\x7b" ++ pyReprObj l ++ "\x7d"

/-- Comma-separated `repr()` of list elements. -/
def pyReprList : List PyJson → String
  | [] => ""
  | [v] => pyRepr v
  | v :: rest => pyRepr v ++ ", " ++ pyReprList rest

/-- Comma-separated `repr()` of dict entries. -/
def pyReprObj : List (String × PyJson) → String
  | [] => ""
  | [(k, v)] => "\x27" ++ k ++ "\x27: " ++ pyRepr v
  | (k, v) :: rest => "\x27" ++ k ++ "\x27: " ++ pyRepr v ++ ", " ++ pyReprObj rest

end

/-- Python `str()` of a parsed JSON value: identical to `repr()` except that
a string renders as its own characters, unquoted. -/
def pyStr : PyJson → String
  | PyJson.str s => s
  | v => pyRepr v

/-- Outcome of `open(file_name)` followed by `json.load`: either a parsed
value or a raised exception carrying a message.  `json.load` of a file
containing the JSON document `null` yields Python `None`, embedded as
`ok PyJson.null`. -/
inductive ReadResult where
  | ok (v : PyJson)
  | exn (msg : String)

/-- Shallow embedding of `load_json` (src/main.py lines 75-94).  The whole
body sits in a `try`/`except Exception` block, so a raised exception is
caught, logged and turned into `None`; on a successful parse the guard
`json_content is not None and len(str(json_content)) > 0` (line 85) keeps
the value, otherwise the function logs an error and returns `None`. -/
def load_json (result : ReadResult) : Option PyJson :=
  match result with
  | ReadResult.exn _ => none
  | ReadResult.ok v =>
    match v with
    | PyJson.null => none
    | v => if (pyStr v).length > 0 then some v else none

/-! ### Helper facts about `pyStr` -/

theorem length_toDigitsCore_lt (b f n : Nat) (l : List Char) :
    l.length < (Nat.toDigitsCore b (f + 1) n l).length := by
  induction f generalizing n l with
  | zero =>
    simp only [Nat.toDigitsCore]
    split <;> simp
  | succ f ih =>
    simp only [Nat.toDigitsCore]
    split
    · simp
    · exact Nat.lt_trans (by simp) (ih _ _)

theorem length_natRepr_pos (n : Nat) : 0 < (Nat.repr n).length := by
  unfold Nat.repr Nat.toDigits
  have h := length_toDigitsCore_lt 10 n n []
  simp only [List.length] at h
  simpa [String.length, List.asString] using h

theorem length_intRepr_pos (n : Int) : 0 < (Int.repr n).length := by
  cases n with
  | ofNat m => exact length_natRepr_pos m
  | negSucc m =>
    simp only [Int.repr]
    rw [String.length_append]
    have h := length_natRepr_pos (m + 1)
    simp only [Nat.succ_eq_add_one] at *
    omega

theorem length_pyStr_pos (v : PyJson) (hv : v ≠ PyJson.str "") :
    0 < (pyStr v).length := by
  cases v with
  | null => decide
  | bool b => cases b <;> decide
  | num n => exact length_intRepr_pos n
  | str s =>
    have hs : s ≠ "" := fun h => hv (by rw [h])
    show 0 < s.length
    cases s with
    | mk l =>
      cases l with
      | nil => exact absurd rfl hs
      | cons c cs => simp [String.length]
  | arr l =>
    show 0 < (pyRepr (PyJson.arr l)).length
    simp only [pyRepr, String.length_append]
    have h : 0 < "]".length := by decide
    omega
  | obj l =>
    show 0 < (pyRepr (PyJson.obj l)).length
    simp only [pyRepr, String.length_append]
    have h : 0 < "\x7d".length := by decide
    omega

/-- C8: `load_json` is total over its error cases: an exceptional read
result is mapped to `none` (caught and logged), and a successful parse is
mapped either to the parsed value unchanged or to `none` — it never
propagates an exception. -/
theorem load_json_never_raises (r : ReadResult) :
    load_json r = none ∨ ∃ v, r = ReadResult.ok v ∧ load_json r = some v := by
  cases r with
  | exn m => exact Or.inl rfl
  | ok v =>
    cases v with
    | null => exact Or.inl rfl
    | bool b =>
      by_cases h : (pyStr (PyJson.bool b)).length > 0
      · exact Or.inr ⟨_, rfl, by simp [load_json, h]⟩
      · exact Or.inl (by simp [load_json, h])
    | num n =>
      by_cases h : (pyStr (PyJson.num n)).length > 0
      · exact Or.inr ⟨_, rfl, by simp [load_json, h]⟩
      · exact Or.inl (by simp [load_json, h])
    | str s =>
      by_cases h : (pyStr (PyJson.str s)).length > 0
      · exact Or.inr ⟨_, rfl, by simp [load_json, h]⟩
      · exact Or.inl (by simp [load_json, h])
    | arr l =>
      by_cases h : (pyStr (PyJson.arr l)).length > 0
      · exact Or.inr ⟨_, rfl, by simp [load_json, h]⟩
      · exact Or.inl (by simp [load_json, h])
    | obj l =>
      by_cases h : (pyStr (PyJson.obj l)).length > 0
      · exact Or.inr ⟨_, rfl, by simp [load_json, h]⟩
      · exact Or.inl (by simp [load_json, h])

/-- C9: `load_json` returns `none` when the parse yields JSON `null` (Python
`None`) and when it yields a value whose `str()` is empty — the empty JSON
string document — and returns every other successfully parsed value
unchanged. -/
theorem load_json_null_and_empty (v : PyJson) :
    load_json (ReadResult.ok PyJson.null) = none ∧
    load_json (ReadResult.ok (PyJson.str "")) = none ∧
    (v ≠ PyJson.null → v ≠ PyJson.str "" →
      load_json (ReadResult.ok v) = some v) := by
  refine ⟨rfl, rfl, fun hnull hempty => ?_⟩
  have hpos := length_pyStr_pos v hempty
  cases v with
  | null => exact absurd rfl hnull
  | bool b => simp [load_json, hpos]
  | num n => simp [load_json, hpos]
  | str s => simp [load_json, hpos]
  | arr l => simp [load_json, hpos]
  | obj l => simp [load_json, hpos]

theorem load_json_null_and_empty_witness :
    load_json (ReadResult.ok (PyJson.bool true)) = some (PyJson.bool true) :=
  (load_json_null_and_empty (PyJson.bool true)).2.2
    (fun h => PyJson.noConfusion h) (fun h => PyJson.noConfusion h)

/-! ## The straight-line bodies of `main` and `exit_` as action traces -/

/-- Atomic actions the body of `main` (src/main.py lines 124-161) can
perform, one constructor per call site.  `signalConnect` stands for
`signal.signal(signal.SIGINT, exit_)`, which appears in the source only as
a comment on line 133. -/
inductive Action where
  | loggingSetup
  | signalConnect
  | parseArgs
  | loadSettings
  | loadMessages
  | constructAuthenticator
  | constructAIHandler
  | constructBotHandler
  | wireRequestsQueue
  | startChatbot
  | aiThreadStart
  | replyThreadStart
  | botStart
  | callExit
deriving DecidableEq

/-- The trace of `main` (src/main.py lines 124-161): the body is
straight-line with no branch on the results of the two `load_json` calls,
so the same actions run in the same order whatever `settings` and
`messages` came back; the commented-out signal connection contributes no
action. -/
def mainTrace (settings messages : Option PyJson) : List Action :=
  [Action.loggingSetup,
   Action.parseArgs,
   Action.loadSettings,
   Action.loadMessages,
   Action.constructAuthenticator,
   Action.constructAIHandler,
   Action.constructBotHandler,
   Action.wireRequestsQueue,
   Action.startChatbot,
   Action.aiThreadStart,
   Action.replyThreadStart,
   Action.botStart,
   Action.callExit]

/-- Atomic actions the shutdown routine `exit_` (src/main.py lines 97-107)
could perform.  `queueShutdown` (a `RequestQueue.shutdown()` call),
`awaitInflight` (a bounded wait for in-flight requests) and
`stopIngestion` are the cooperative-shutdown actions the specification
describes; the constructors exist so their absence from the actual trace
is expressible. -/
inductive ExitAction where
  | logWarning
  | getPid
  | processTerminate
  | exitWithCode (code : Nat)
  | queueShutdown
  | awaitInflight
  | stopIngestion
deriving DecidableEq

/-- The trace of `exit_` (src/main.py lines 97-107): log a warning, read
the current pid, hard-terminate the process via `psutil`, then `exit(0)`. -/
def exitTrace : List ExitAction :=
  [ExitAction.logWarning,
   ExitAction.getPid,
   ExitAction.processTerminate,
   ExitAction.exitWithCode 0]

/-- The status code a trace passes to `exit`, if any. -/
def exitCodeOf (t : List ExitAction) : Option Nat :=
  t.findSome? fun a =>
    match a with
    | ExitAction.exitWithCode c => some c
    | _ => none

/-- C1 counterexample: in a run where `load_json` returned `none` for the
settings file, `main` still constructs Authenticator, AIHandler and
BotHandler and still starts the AIHandler thread — startup is not aborted
on a failed config load. -/
theorem main_constructs_despite_bad_settings_cx :
    Action.constructAuthenticator ∈ mainTrace none none ∧
    Action.constructAIHandler ∈ mainTrace none none ∧
    Action.constructBotHandler ∈ mainTrace none none ∧
    Action.aiThreadStart ∈ mainTrace none none := by decide

/-- C1 amended: `main` never branches on the result of `load_json`: for
every outcome of the settings and messages loads, it constructs and starts
all three components, and the only exit path is the final `exit_` call,
whose status code is 0, not non-zero. -/
theorem main_no_fatal_config_path (settings messages : Option PyJson) :
    Action.constructAuthenticator ∈ mainTrace settings messages ∧
    Action.constructAIHandler ∈ mainTrace settings messages ∧
    Action.constructBotHandler ∈ mainTrace settings messages ∧
    Action.aiThreadStart ∈ mainTrace settings messages ∧
    Action.botStart ∈ mainTrace settings messages ∧
    Action.callExit ∈ mainTrace settings messages ∧
    exitCodeOf exitTrace = some 0 := by
  simp only [mainTrace]
  decide

/-- C2 counterexample: the shutdown routine `exit_` performs none of the
cooperative-shutdown actions: it never calls `RequestQueue.shutdown()`,
never waits for in-flight requests and never stops ingestion before
terminating. -/
theorem exit_not_cooperative_cx :
    ExitAction.queueShutdown ∉ exitTrace ∧
    ExitAction.awaitInflight ∉ exitTrace ∧
    ExitAction.stopIngestion ∉ exitTrace := by decide

/-- C2 amended: `exit_` performs a hard shutdown: it logs a warning,
hard-terminates its own process via `psutil` and calls `exit(0)` — the
exit status is 0, but no `RequestQueue.shutdown()` call, no bounded wait
for in-flight requests and no stop of event ingestion happens. -/
theorem exit_hard_terminate :
    ExitAction.logWarning ∈ exitTrace ∧
    ExitAction.processTerminate ∈ exitTrace ∧
    exitCodeOf exitTrace = some 0 ∧
    ExitAction.queueShutdown ∉ exitTrace ∧
    ExitAction.awaitInflight ∉ exitTrace ∧
    ExitAction.stopIngestion ∉ exitTrace := by decide

/-- C3 counterexample: `main` run with any concrete load results performs
no `signal.signal(SIGINT, exit_)` action — the connection is commented
out, so a delivered SIGINT is left to the interpreter default. -/
theorem sigint_not_connected_cx :
    Action.signalConnect ∉ mainTrace none none := by decide

/-- C3 amended: for every run, `main` never connects the interrupt signal
to `exit_`: the `signal.signal` call is commented out (src/main.py line
133), so SIGINT keeps the interpreter default behaviour. -/
theorem main_omits_signal_connect (settings messages : Option PyJson) :
    Action.signalConnect ∉ mainTrace settings messages := by
  simp only [mainTrace]
  decide

/-- C4: `main` starts the components in dependency order — the
Authenticator chatbot is made ready first, then the AIHandler worker
thread, then the BotHandler reply thread, and the bot ingestion loop last
— each started exactly once. -/
theorem main_start_order (settings messages : Option PyJson) :
    List.Sublist
      [Action.startChatbot, Action.aiThreadStart,
       Action.replyThreadStart, Action.botStart]
      (mainTrace settings messages) ∧
    (mainTrace settings messages).count Action.startChatbot = 1 ∧
    (mainTrace settings messages).count Action.aiThreadStart = 1 ∧
    (mainTrace settings messages).count Action.replyThreadStart = 1 ∧
    (mainTrace settings messages).count Action.botStart = 1 := by
  simp only [mainTrace]
  decide

/-! ## The queue wiring of `main` (C10) -/

/-- The `requests_queue` attribute of an AIHandler instance, holding a
reference (modelled as an identifier) to a queue object, or none. -/
structure AIHandlerObj where
  requests_queue : Option Nat

/-- The `requests_queue` attribute of a BotHandler instance. -/
structure BotHandlerObj where
  requests_queue : Option Nat

/-- Modelled from the spec: the constructors of `AIHandler` and
`BotHandler` live in modules outside the visible source; per the
specification the frontend owns the queue (`BotHandler` creates it, here
reference 0) and the AIHandler starts without one. -/
def constructHandlers : AIHandlerObj × BotHandlerObj :=
  (AIHandlerObj.mk none, BotHandlerObj.mk (some 0))

/-- Embedding of the wiring assignment `ai_handler.requests_queue =
bot_handler.requests_queue` (src/main.py line 146). -/
def wireQueue (ai : AIHandlerObj) (bot : BotHandlerObj) : AIHandlerObj :=
  AIHandlerObj.mk bot.requests_queue

/-- C10: after the wiring step of `main`, the AIHandler and the BotHandler
hold the identical `requests_queue` reference — whatever handler pair the
constructors produced, the assignment makes the AI handler point at the
very queue the bot handler created, so there are never two distinct
queues; in particular the concretely constructed pair ends up sharing
queue 0. -/
theorem queue_wiring_identical (ai : AIHandlerObj) (bot : BotHandlerObj) :
    (wireQueue ai bot).requests_queue = bot.requests_queue ∧
    (wireQueue constructHandlers.1 constructHandlers.2).requests_queue =
      constructHandlers.2.requests_queue ∧
    (wireQueue constructHandlers.1 constructHandlers.2).requests_queue =
      some 0 :=
  ⟨rfl, rfl, rfl⟩

/-! ## The request-relay engine (C5, C6) -/

/-- Modelled from the spec: the observable state of the RequestQueue
engine (the queue, worker and reply-channel modules are outside the
visible source).  Requests are identified by their `request_id`.
`pending` is the FIFO queue contents, `inflight` the requests dequeued by
workers and still processing, `responded` the log of produced Responses in
completion order, `enqueueLog` the log of all enqueues in enqueue order,
and `dequeueLog` the log of all dequeues in dequeue order. -/
structure EngineState where
  pending : List Nat
  inflight : List Nat
  responded : List Nat
  enqueueLog : List Nat
  dequeueLog : List Nat

/-- The engine before any event: everything empty. -/
def initEngine : EngineState :=
  EngineState.mk [] [] [] [] []

/-- Modelled from the spec: one atomic engine event.  A producer enqueues
a fresh request at the tail; a worker dequeues the head request; a worker
completes an in-flight request, producing exactly one Response for it
(success or terminal failure look identical at this granularity). -/
inductive EngineStep : EngineState → EngineState → Prop where
  | enqueue (s : EngineState) (r : Nat) (fresh : r ∉ s.enqueueLog) :
      EngineStep s
        (EngineState.mk (s.pending ++ [r]) s.inflight s.responded
          (s.enqueueLog ++ [r]) s.dequeueLog)
  | dequeue (s : EngineState) (r : Nat) (rest : List Nat)
      (h : s.pending = r :: rest) :
      EngineStep s
        (EngineState.mk rest (s.inflight ++ [r]) s.responded
          s.enqueueLog (s.dequeueLog ++ [r]))
  | respond (s : EngineState) (r : Nat) (h : r ∈ s.inflight) :
      EngineStep s
        (EngineState.mk s.pending (s.inflight.erase r) (s.responded ++ [r])
          s.enqueueLog s.dequeueLog)

/-- States the engine can reach from the empty initial state by any
interleaving of producer and worker events. -/
inductive EngineReachable : EngineState → Prop where
  | init : EngineReachable initEngine
  | step {s t : EngineState} :
      EngineReachable s → EngineStep s t → EngineReachable t

theorem engine_invariant {s : EngineState} (h : EngineReachable s) :
    s.dequeueLog ++ s.pending = s.enqueueLog ∧
    s.enqueueLog.Nodup ∧
    s.enqueueLog.Perm (s.pending ++ s.inflight ++ s.responded) := by
  induction h with
  | init => simp [initEngine]
  | step hr hs ih =>
    obtain ⟨h1, h2, h3⟩ := ih
    cases hs with
    | enqueue r fresh =>
      refine ⟨?_, ?_, ?_⟩
      · simp only [← List.append_assoc, h1]
      · simp [List.nodup_append, h2, fresh]
      · refine List.perm_iff_count.mpr fun a => ?_
        have hc := List.perm_iff_count.mp h3 a
        simp only [List.count_append] at hc ⊢
        omega
    | dequeue r rest hp =>
      refine ⟨?_, h2, ?_⟩
      · simp only [List.append_assoc, List.singleton_append, ← hp, h1]
      · refine List.perm_iff_count.mpr fun a => ?_
        have hc := List.perm_iff_count.mp h3 a
        simp only [hp, List.count_append, List.count_cons,
          List.count_nil] at hc ⊢
        omega
    | respond r hin =>
      refine ⟨h1, h2, ?_⟩
      refine List.perm_iff_count.mpr fun a => ?_
      have hc := List.perm_iff_count.mp h3 a
      have hperm := List.perm_cons_erase hin
      have hcnt := List.perm_iff_count.mp hperm a
      simp only [List.count_cons, List.count_nil] at hcnt
      simp only [List.count_append, List.count_cons, List.count_nil] at hc ⊢
      omega

/-- C5: no enqueued request is silently dropped: in every reachable state
in which the engine has drained (nothing pending, nothing in flight) —
i.e. the process was not terminated first — every request that was ever
enqueued has exactly one Response in the response log, whatever
interleaving of producers and workers produced the run. -/
theorem enqueued_yields_exactly_one_response {s : EngineState}
    (h : EngineReachable s) (hp : s.pending = []) (hi : s.inflight = [])
    (r : Nat) (hr : r ∈ s.enqueueLog) :
    s.responded.count r = 1 := by
  obtain ⟨_, hnodup, hperm⟩ := engine_invariant h
  rw [hp, hi] at hperm
  simp only [List.nil_append] at hperm
  rw [← hperm.count_eq r]
  exact List.count_eq_one_of_mem hnodup hr

theorem enqueued_yields_exactly_one_response_witness :
    (EngineState.mk [] (List.erase [7] 7) [7] [7] [7]).responded.count 7 = 1 := by
  have h0 : EngineReachable (EngineState.mk [7] [] [] [7] []) :=
    EngineReachable.step EngineReachable.init
      (EngineStep.enqueue initEngine 7 (by simp [initEngine]))
  have h1 : EngineReachable (EngineState.mk [] [7] [] [7] [7]) :=
    EngineReachable.step h0 (EngineStep.dequeue _ 7 [] rfl)
  have h2 : EngineReachable (EngineState.mk [] (List.erase [7] 7) [7] [7] [7]) :=
    EngineReachable.step h1 (EngineStep.respond _ 7 (by simp))
  exact enqueued_yields_exactly_one_response h2 rfl (by simp) 7 (by simp)

/-- C6: FIFO per producer: in every reachable state, if request `r1` was
enqueued before request `r2` (earlier in the enqueue log, as the two
enqueues of one producer are) and both have been dequeued, then `r1` was
dequeued before `r2`.  The engine has a single global queue, so the
guarantee transfers order only from the enqueue log; no relation between
enqueues of different producers is assumed or produced. -/
theorem fifo_per_producer {s : EngineState} (h : EngineReachable s)
    (r1 r2 : Nat) (h1 : r1 ∈ s.dequeueLog) (h2 : r2 ∈ s.dequeueLog)
    (horder : s.enqueueLog.indexOf r1 < s.enqueueLog.indexOf r2) :
    s.dequeueLog.indexOf r1 < s.dequeueLog.indexOf r2 := by
  obtain ⟨hpre, _, _⟩ := engine_invariant h
  rw [← hpre, List.indexOf_append_of_mem h1,
      List.indexOf_append_of_mem h2] at horder
  exact horder

theorem fifo_per_producer_witness :
    List.indexOf 1 (EngineState.mk [] [1, 2] [] [1, 2] [1, 2]).dequeueLog <
    List.indexOf 2 (EngineState.mk [] [1, 2] [] [1, 2] [1, 2]).dequeueLog := by
  have h0 : EngineReachable (EngineState.mk [1] [] [] [1] []) :=
    EngineReachable.step EngineReachable.init
      (EngineStep.enqueue initEngine 1 (by simp [initEngine]))
  have h1 : EngineReachable (EngineState.mk [1, 2] [] [] [1, 2] []) :=
    EngineReachable.step h0 (EngineStep.enqueue _ 2 (by simp))
  have h2 : EngineReachable (EngineState.mk [2] [1] [] [1, 2] [1]) :=
    EngineReachable.step h1 (EngineStep.dequeue _ 1 [2] rfl)
  have h3 : EngineReachable (EngineState.mk [] [1, 2] [] [1, 2] [1, 2]) :=
    EngineReachable.step h2 (EngineStep.dequeue _ 2 [] rfl)
  exact fifo_per_producer h3 1 2 (by simp) (by simp) (by decide)

/-! ## The AIWorker retry loop (C7) -/

/-- One invocation of the AI-backend collaborator: success, a retryable
error (timeout, rate-limit, transient network failure) or a terminal
error. -/
inductive BackendResult where
  | success (text : String)
  | retryable (err : String)
  | terminal (err : String)

/-- The final result the worker publishes as a Response. -/
inductive WorkerResult where
  | ok (text : String)
  | terminalError (err : String)

/-- Modelled from the spec: the bounded retry loop of the AIWorker.
`backend i` is the outcome of the `i`-th backend invocation; the loop
stops on success or a terminal error, retries on a retryable error while
attempts remain, and, retries exhausted, produces a Response with a
terminal error descriptor instead of dropping the request.  Returns the
number of backend invocations made together with the final result;
backoff delays are timing and not modelled. -/
def runAttempts (backend : Nat → BackendResult) :
    Nat → Nat → Nat × WorkerResult
  | 0, _ => (0, WorkerResult.terminalError "retries exhausted")
  | remaining + 1, attempt =>
    match backend attempt with
    | BackendResult.success t => (1, WorkerResult.ok t)
    | BackendResult.terminal e => (1, WorkerResult.terminalError e)
    | BackendResult.retryable _ =>
      let tail := runAttempts backend remaining (attempt + 1)
      (tail.1 + 1, tail.2)

/-- Modelled from the spec: processing of one request with the configured
maximum attempt count. -/
def processRequest (backend : Nat → BackendResult)
    (max_attempts : Nat) : Nat × WorkerResult :=
  runAttempts backend max_attempts 0

theorem runAttempts_all_retryable (backend : Nat → BackendResult)
    (hall : ∀ i, ∃ e, backend i = BackendResult.retryable e) :
    ∀ n a, (runAttempts backend n a).1 = n ∧
      ∃ e, (runAttempts backend n a).2 = WorkerResult.terminalError e := by
  intro n
  induction n with
  | zero => exact fun a => ⟨rfl, "retries exhausted", rfl⟩
  | succ m ih =>
    intro a
    obtain ⟨e, he⟩ := hall a
    obtain ⟨ih1, e2, ih2⟩ := ih (a + 1)
    simp only [runAttempts, he]
    exact ⟨by rw [ih1], e2, ih2⟩

/-- C7: against a backend that returns a retryable error on every
invocation, processing a request makes exactly `max_attempts` backend
invocations and then produces a Response carrying a terminal error
descriptor — the request is not dropped. -/
theorem retry_bound (backend : Nat → BackendResult) (max_attempts : Nat)
    (hall : ∀ i, ∃ e, backend i = BackendResult.retryable e) :
    (processRequest backend max_attempts).1 = max_attempts ∧
    ∃ e, (processRequest backend max_attempts).2 =
      WorkerResult.terminalError e :=
  runAttempts_all_retryable backend hall max_attempts 0

theorem retry_bound_witness :
    (processRequest (fun _ => BackendResult.retryable "timeout") 3).1 = 3 ∧
    ∃ e, (processRequest (fun _ => BackendResult.retryable "timeout") 3).2 =
      WorkerResult.terminalError e :=
  retry_bound (fun _ => BackendResult.retryable "timeout") 3
    (fun _ => ⟨"timeout", rfl⟩)

end Telegramus
